import Mathlib

/-!
Verification development for the task-dispatch scripts of this repository.

Shallow embedding of `nodes/demo_scripts/dispatch_arm_task.py` and
`nodes/demo_scripts/dispatch_couple_decouple_action.py`.  The ROS transport
(service clients, publishers, clocks) is external: service completions are
modelled as explicit events applied to the coordinator state, publishing a
task message is modelled by a counter on that state, and cancelling the
`asyncio.Future` named `self.response` is modelled by a boolean flag.
Python integers are modelled by `Int`/`Nat`; the dictionaries produced by
`json.loads` on the action-description arguments are modelled as
association lists of strings.
-/

/-- Python truthiness of an optional string (`if object_name:` where the
argument defaults to `None`): `None` and the empty string are falsy. -/
def truthyOpt : Option String → Bool
  | none => false
  | some s => if s = "" then false else true

/-- Python truthiness of a plain string argument (`if self.args.action2:`
where the argument defaults to the empty string). -/
def truthyStr (s : String) : Bool :=
  if s = "" then false else true

/-- Response of the `mm_zone_query` service (`CheckMmZone.Response`). -/
structure ZoneResponse where
  is_mm_zone : Bool
  zone_name : String
  result : String
  deriving DecidableEq

/-- Response of the `{fleet}_effector_query` service
(`CheckEffector.Response`). -/
structure EffectorResponse where
  effector_ready : Bool
  deriving DecidableEq

/-- State of the `TaskRequester` node of `dispatch_arm_task.py` that the
verification callbacks read and mutate.  `cancelled` models
`self.response.cancel()` having been called; `published` counts the calls
of `self.task_pub.publish` made through `send_dispatch_arm_task`. -/
structure CoordState where
  zone_requests_pending : Int
  effector_checks_pending : Int
  object_zone_name : Option String
  object_zone_name2 : Option String
  cancelled : Bool
  published : Nat
  deriving DecidableEq

/-- State of the requester before `__init__` runs the dispatch logic:
both counters zero, no zone names stored, nothing cancelled or published. -/
def initial_state : CoordState :=
  { zone_requests_pending := 0
    effector_checks_pending := 0
    object_zone_name := none
    object_zone_name2 := none
    cancelled := false
    published := 0 }

/-- Embedding of `TaskRequester.send_dispatch_arm_task`: builds the task
message and publishes it once (the message construction itself is the pure
`create_dispatch_arm_task` below; here only the publication count on the
coordinator state matters). -/
def send_dispatch_arm_task (st : CoordState) : CoordState :=
  { st with published := st.published + 1 }

/-- Embedding of `TaskRequester.check_if_ready_to_dispatch`: dispatch when
both pending counters are zero. -/
def check_if_ready_to_dispatch (st : CoordState) : CoordState :=
  if st.zone_requests_pending = 0 ∧ st.effector_checks_pending = 0 then
    send_dispatch_arm_task st
  else
    st

/-- Embedding of `TaskRequester.zone_request_service_callback`.  A `none`
result models `future.result()` being `None` (service call failed); the
check `not result.is_mm_zone or not result.zone_name` uses Python string
truthiness, so an empty `zone_name` is also a failure. -/
def zone_request_service_callback (st : CoordState) (result : Option ZoneResponse)
    (is_second : Bool) : CoordState :=
  match result with
  | none => { st with cancelled := true }
  | some r =>
    if r.is_mm_zone = false ∨ r.zone_name = "" then
      { st with cancelled := true }
    else
      let st1 :=
        if is_second then { st with object_zone_name2 := some r.zone_name }
        else { st with object_zone_name := some r.zone_name }
      check_if_ready_to_dispatch
        { st1 with zone_requests_pending := st1.zone_requests_pending - 1 }

/-- Embedding of `TaskRequester.effector_query_service_callback`.  The
`is_second` flag only selects the log label in the source, so it does not
influence the resulting state. -/
def effector_query_service_callback (st : CoordState) (result : Option EffectorResponse)
    (is_second : Bool) : CoordState :=
  match result with
  | none => { st with cancelled := true }
  | some r =>
    if r.effector_ready = false then
      { st with cancelled := true }
    else
      check_if_ready_to_dispatch
        { st with effector_checks_pending := st.effector_checks_pending - 1 }

/-- Kind of an issued verification request: a zone check or an effector
check, for the first or the second action slot. -/
inductive ReqKind where
  | zoneReq (is_second : Bool)
  | effectorReq (is_second : Bool)
  deriving DecidableEq

/-- Whether a request kind is a zone check. -/
def ReqKind.isZone : ReqKind → Bool
  | .zoneReq _ => true
  | .effectorReq _ => false

/-- A completion event delivered to the single-threaded executor: the
`done` callback of one issued verification request, carrying the result
of the service call (`none` when `future.result()` is `None`). -/
inductive Event where
  | zoneCompletion (is_second : Bool) (result : Option ZoneResponse)
  | effectorCompletion (is_second : Bool) (result : Option EffectorResponse)
  deriving DecidableEq

/-- Request kind completed by an event. -/
def Event.kind : Event → ReqKind
  | .zoneCompletion s _ => .zoneReq s
  | .effectorCompletion s _ => .effectorReq s

/-- Whether an event completes a zone request. -/
def Event.isZone (e : Event) : Bool :=
  e.kind.isZone

/-- Whether a completion is a success in the sense of the callbacks:
a zone completion succeeds when a result is present, `is_mm_zone` holds
and `zone_name` is nonempty; an effector completion succeeds when a result
is present and `effector_ready` holds. -/
def Event.isSuccess : Event → Bool
  | .zoneCompletion _ none => false
  | .zoneCompletion _ (some r) => decide (¬(r.is_mm_zone = false ∨ r.zone_name = ""))
  | .effectorCompletion _ none => false
  | .effectorCompletion _ (some r) => r.effector_ready

/-- Dispatch of one completion event to its callback. -/
def step (st : CoordState) : Event → CoordState
  | .zoneCompletion s r => zone_request_service_callback st r s
  | .effectorCompletion s r => effector_query_service_callback st r s

/-- Processing of a sequence of completion events, one at a time, on the
single logical thread of the executor. -/
def runEvents (st : CoordState) (evs : List Event) : CoordState :=
  evs.foldl step st

/-- Number of zone completions in an event list. -/
def zoneEvents (evs : List Event) : Nat :=
  evs.countP Event.isZone

/-- Number of effector completions in an event list. -/
def effEvents (evs : List Event) : Nat :=
  evs.countP fun e => !e.isZone

/-- Parsed command-line configuration of `dispatch_arm_task.py`.  The
`action_desc` fields carry the dictionaries that `json.loads` produces
from the `-ad`/`-ad2` JSON strings (JSON parsing is external), modelled as
association lists with string values. -/
structure Args where
  fleet : String
  robot : String
  places : List String
  action : String
  action_desc : List (String × String)
  object_name : Option String
  action2 : String
  action_desc2 : List (String × String)
  object_name2 : Option String
  start_time : Int
  priority : Int
  deriving DecidableEq

/-- Embedding of the dispatch logic at the end of `TaskRequester.__init__`
of `dispatch_arm_task.py`: for `arm_action` dispatch immediately; otherwise
count the needed zone requests and effector checks into the pending
counters and issue the corresponding verification requests.  Returns the
resulting coordinator state together with the list of issued requests in
the order the source sends them. -/
def init_requester (a : Args) : CoordState × List ReqKind :=
  if a.action = "arm_action" then
    (send_dispatch_arm_task initial_state, [])
  else
    let zrp : Int :=
      (if truthyOpt a.object_name then 1 else 0) +
      (if truthyStr a.action2 && truthyOpt a.object_name2 then 1 else 0)
    let ecp : Int := 1 + (if truthyStr a.action2 then 1 else 0)
    let reqs : List ReqKind :=
      (if truthyOpt a.object_name then [ReqKind.zoneReq false] else []) ++
      (if truthyStr a.action2 && truthyOpt a.object_name2 then [ReqKind.zoneReq true] else []) ++
      [ReqKind.effectorReq false] ++
      (if truthyStr a.action2 then [ReqKind.effectorReq true] else [])
    ({ initial_state with
        zone_requests_pending := zrp
        effector_checks_pending := ecp },
     reqs)

/-- Number of prerequisite verifications a configuration requires: the
length of the request list `__init__` issues for it. -/
def required_verifications (a : Args) : Nat :=
  (init_requester a).2.length

/-- Embedding of Python `round(now.nanosec / 10**6)`: conversion of
nanoseconds to milliseconds with round-half-to-even (for inputs below
`10^9` the float division is exact enough that `round` agrees with
rational half-even rounding). -/
def round_ns_to_millis (ns : Nat) : Nat :=
  let q := ns / 1000000
  let r := ns % 1000000
  if r < 500000 then q
  else if 500000 < r then q + 1
  else if q % 2 = 0 then q else q + 1

/-- Embedding of the start-time computation shared by both scripts:
`now.sec = now.sec + self.args.start_time` followed by
`start_time = now.sec * 1000 + round(now.nanosec / 10**6)`. -/
def task_start_time (now_sec start_offset : Int) (now_nanosec : Nat) : Int :=
  let sec2 := now_sec + start_offset
  sec2 * 1000 + (round_ns_to_millis now_nanosec : Int)

/-- One entry of the composed `activities` list: either a dictionary with
category `zone`, or one with category `perform_action` (whose description
carries the constant duration estimate, the action name as inner category,
and the action-description dictionary). -/
inductive Activity where
  | zoneActivity (zone : String) (places : List String)
  | performAction (duration_estimate_ms : Nat) (category : String)
      (description : List (String × String))
  deriving DecidableEq

/-- Python dictionary update `d[k] = v` on an association list: replace
the value in place when the key exists, else append the pair. -/
def dictSet (d : List (String × String)) (k v : String) : List (String × String) :=
  if d.any fun p => p.1 == k then
    d.map fun p => if p.1 == k then (k, v) else p
  else
    d ++ [(k, v)]

/-- Embedding of the helper `add_action_activities` nested in
`create_dispatch_arm_task`.  The source appends to the closed-over
`activities` list; here the contribution is returned and the caller
concatenates.  When an object name is truthy and the zone name is `None`,
the body appends nothing (there is no `else` on the inner `if`). -/
def add_action_activities (action : String) (object_name : Option String)
    (zone_name : Option String) (action_desc : List (String × String))
    (places : List String) : List Activity :=
  if truthyOpt object_name then
    match zone_name with
    | some zn =>
        [Activity.zoneActivity zn places,
         Activity.performAction 60000 action (dictSet action_desc "zone_name" zn)]
    | none => []
  else
    [Activity.performAction 60000 action action_desc]

/-- Structured content of the `request` dictionary built by
`create_dispatch_arm_task`: the outer `category`, the
`description.category`, the flattened activities of the single sequence
phase, and `unix_millis_earliest_start_time`. -/
structure TaskRequest where
  category : String
  description_category : String
  activities : List Activity
  unix_millis_earliest_start_time : Int
  deriving DecidableEq

/-- Embedding of `TaskRequester.create_dispatch_arm_task` (the `request`
part of the payload).  `st` supplies `self.object_zone_name` and
`self.object_zone_name2`; `now_sec`/`now_nanosec` are the clock reading. -/
def create_dispatch_arm_task (a : Args) (st : CoordState)
    (now_sec : Int) (now_nanosec : Nat) : TaskRequest :=
  { category := "compose"
    description_category := a.action
    activities :=
      add_action_activities a.action a.object_name st.object_zone_name
        a.action_desc a.places ++
      (if truthyStr a.action2 then
        add_action_activities a.action2 a.object_name2 st.object_zone_name2
          a.action_desc2 a.places
      else [])
    unix_millis_earliest_start_time := task_start_time now_sec a.start_time now_nanosec }

/-- Embedding of the `while not client.wait_for_service(timeout_sec=5.0)`
loops of `send_zone_request` and `send_effector_query`: attempt `i` asks
whether the service is available during the `i`-th five-second wait; the
loop exits at the first available attempt.  The loop in the source has no
iteration bound, so the embedding is fuel-indexed: `none` means the given
number of iterations was exhausted without the service appearing. -/
def wait_for_service_loop (avail : Nat → Bool) : Nat → Nat → Option Nat
  | 0, _ => none
  | fuel + 1, i => if avail i then some i else wait_for_service_loop avail fuel (i + 1)

/-- Termination of the service wait loop: some finite amount of fuel makes
the loop exit. -/
def wait_loop_exits (avail : Nat → Bool) : Prop :=
  ∃ fuel i, wait_for_service_loop avail fuel 0 = some i

/-- Parsed command-line configuration of
`dispatch_couple_decouple_action.py` (the fields the task construction
reads).  `candidates_robot` is `none` when the flag is absent (argparse
default is the empty string, which the source compares against). -/
structure CDArgs where
  fleet : Option String
  robot : Option String
  start_time : Int
  requester : String
  action : String
  zone_name : String
  candidates_fleet : Option String
  candidates_robot : Option (List String)
  number_of_robots : Int
  deriving DecidableEq

/-- Candidates dictionary built for the couple description. -/
structure Candidates where
  fleet : Option String
  robots : List String
  deriving DecidableEq

/-- Description dictionary variants returned by
`__create_couple_decouple_desc`. -/
inductive CDDesc where
  | coupleDesc (action : String) (number_of_robots : Int)
      (candidates : Option Candidates) (expected_zone : String)
      (estimated_duration : Int)
  | minimalDesc (estimated_duration : Int)
  deriving DecidableEq

/-- Embedding of the nested helper `__create_couple_decouple_desc`. -/
def create_couple_decouple_desc (action : String) (expected_zone : String)
    (number_of_robots : Int) (input_candidates : Option Candidates) : CDDesc :=
  if action = "couple" then
    match input_candidates with
    | some c => CDDesc.coupleDesc action number_of_robots (some c) expected_zone 60
    | none => CDDesc.coupleDesc action number_of_robots none expected_zone 60
  else
    CDDesc.minimalDesc 60

/-- One entry of the activities list of the couple/decouple task. -/
structure CDActivity where
  category : String
  description : CDDesc
  deriving DecidableEq

/-- Structured content of the payload built by the
couple/decouple requester. -/
structure CDTask where
  payload_type : String
  payload_robot : Option String
  payload_fleet : Option String
  unix_millis_request_time : Int
  unix_millis_earliest_start_time : Int
  requester : String
  fleet_name : Option String
  category : String
  description_category : String
  activities : List CDActivity
  deriving DecidableEq

/-- Attribute access `self.args.zone` in `__create_couple_decouple_desc`
call sites: the parser registers the option under attribute `zone_name`
(flags `-zn`/`--zone_name`), so reading attribute `zone` raises
`AttributeError` at runtime.  Modelled as the raised exception. -/
def args_zone (a : CDArgs) : Except String String :=
  Except.error "AttributeError: Namespace object has no attribute zone"

/-- Embedding of the task construction in `TaskRequester.__init__` of
`dispatch_couple_decouple_action.py`, in source order: payload typing,
start time, candidate assembly, the action validation (which raises
`ValueError` for actions outside couple/decouple), then the activity
construction (which reads `self.args.zone`, see `args_zone`) and the
publication.  An `Except.error` models a raised exception: control never
reaches `self.pub.publish`. -/
def couple_decouple_requester (a : CDArgs) (now_sec : Int) (now_ns : Nat) :
    Except String CDTask :=
  let payload_type :=
    if truthyOpt a.fleet && truthyOpt a.robot then "robot_task_request"
    else "dispatch_task_request"
  let start_time := task_start_time now_sec a.start_time now_ns
  let number_of_robots : Int :=
    if 2 ≤ a.number_of_robots then a.number_of_robots else 2
  let candidates_fleet : Option String :=
    if a.candidates_fleet ≠ some "" then a.candidates_fleet else some ""
  let input_candidates : Option Candidates :=
    match a.candidates_robot with
    | none => none
    | some robots => some { fleet := candidates_fleet, robots := robots }
  if ¬(a.action = "couple" ∨ a.action = "decouple") then
    Except.error "ValueError: Action should be couple or decouple"
  else
    let activityCat := if a.action = "couple" then "couple_action" else "decouple_action"
    match args_zone a with
    | Except.error e => Except.error e
    | Except.ok z =>
        Except.ok
          { payload_type := payload_type
            payload_robot := if truthyOpt a.fleet && truthyOpt a.robot then a.robot else none
            payload_fleet := if truthyOpt a.fleet && truthyOpt a.robot then a.fleet else none
            unix_millis_request_time := start_time
            unix_millis_earliest_start_time := start_time
            requester := a.requester
            fleet_name := if truthyOpt a.fleet then a.fleet else none
            category := "compose"
            description_category := "testing_couple_decouple_action"
            activities :=
              [{ category := activityCat
                 description :=
                   create_couple_decouple_desc a.action z number_of_robots
                     input_candidates }] }

/-- Number of task messages the couple/decouple requester publishes: one
when construction completes, zero when an exception is raised first. -/
def cd_publications (a : CDArgs) (now_sec : Int) (now_ns : Nat) : Nat :=
  match couple_decouple_requester a now_sec now_ns with
  | Except.ok _ => 1
  | Except.error _ => 0

/-- Concrete configuration used to exercise the coordinator: one action
with an object name, no second action. -/
def c1_args : Args :=
  { fleet := "tinyRobot"
    robot := "tinyRobot1"
    places := ["waypoint_1"]
    action := "pick"
    action_desc := []
    object_name := some "bin7"
    action2 := ""
    action_desc2 := []
    object_name2 := none
    start_time := 0
    priority := 0 }

/-- Completion events for `c1_args`: the zone check confirms zone `Z3`,
the effector check confirms readiness. -/
def c1_events : List Event :=
  [Event.zoneCompletion false (some { is_mm_zone := true, zone_name := "Z3", result := "ok" }),
   Event.effectorCompletion false (some { effector_ready := true })]

/-- Concrete configuration with two actions and no object names: two
effector checks are issued and no zone requests. -/
def c2_args : Args :=
  { fleet := "tinyRobot"
    robot := "tinyRobot1"
    places := []
    action := "pick"
    action_desc := []
    object_name := none
    action2 := "place"
    action_desc2 := []
    object_name2 := none
    start_time := 0
    priority := 0 }

/-- Completion reporting the first effector as not ready (a failure). -/
def c2_fail_event : Event :=
  Event.effectorCompletion false (some { effector_ready := false })

/-- Late completion reporting the second effector ready (a success),
arriving after the failure has cancelled the outcome. -/
def c2_late_event : Event :=
  Event.effectorCompletion true (some { effector_ready := true })

/-- State after the failing effector completion for `c2_args`. -/
def c2_state1 : CoordState :=
  step (init_requester c2_args).1 c2_fail_event

/-- State after the late successful effector completion, applied to the
already-cancelled state. -/
def c2_state2 : CoordState :=
  step c2_state1 c2_late_event

/-- Concrete configuration with a first action whose category the payload
fields can be compared against. -/
def c3_args : Args :=
  { fleet := "tinyRobot"
    robot := "tinyRobot1"
    places := []
    action := "pick"
    action_desc := []
    object_name := none
    action2 := ""
    action_desc2 := []
    object_name2 := none
    start_time := 0
    priority := 0 }

/-- Concrete `arm_action` configuration: the immediate-dispatch branch of
`__init__`. -/
def c7_args : Args :=
  { fleet := "tinyRobot"
    robot := "tinyRobot1"
    places := []
    action := "arm_action"
    action_desc := []
    object_name := none
    action2 := ""
    action_desc2 := []
    object_name2 := none
    start_time := 0
    priority := 0 }

/-- Concrete couple/decouple configuration whose action is outside the
two known coupling kinds. -/
def c9_args : CDArgs :=
  { fleet := none
    robot := none
    start_time := 0
    requester := "rmf_demos_tasks"
    action := "dock"
    zone_name := "zone_a"
    candidates_fleet := none
    candidates_robot := none
    number_of_robots := 2 }

/-! ## Helper lemmas about the coordinator step function -/

lemma step_fail (st : CoordState) (e : Event) (h : e.isSuccess = false) :
    step st e = { st with cancelled := true } := by
  cases e with
  | zoneCompletion s r =>
    cases r with
    | none => rfl
    | some zr =>
      rcases Decidable.em (zr.is_mm_zone = false ∨ zr.zone_name = "") with hc | hc
      · simp only [step, zone_request_service_callback]
        rw [if_pos hc]
      · exfalso
        simp [Event.isSuccess, hc] at h
  | effectorCompletion s r =>
    cases r with
    | none => rfl
    | some er =>
      have hc : er.effector_ready = false := by
        simpa [Event.isSuccess] using h
      simp only [step, effector_query_service_callback]
      rw [if_pos hc]

lemma step_zone_success (st : CoordState) (s : Bool) (zr : ZoneResponse)
    (h : (Event.zoneCompletion s (some zr)).isSuccess = true) :
    (step st (Event.zoneCompletion s (some zr))).zone_requests_pending
        = st.zone_requests_pending - 1 ∧
    (step st (Event.zoneCompletion s (some zr))).effector_checks_pending
        = st.effector_checks_pending ∧
    (step st (Event.zoneCompletion s (some zr))).cancelled = st.cancelled ∧
    (step st (Event.zoneCompletion s (some zr))).published
        = st.published +
          (if st.zone_requests_pending - 1 = 0 ∧ st.effector_checks_pending = 0
           then 1 else 0) := by
  have hc : ¬(zr.is_mm_zone = false ∨ zr.zone_name = "") := by
    simpa [Event.isSuccess] using h
  simp only [step, zone_request_service_callback]
  rw [if_neg hc]
  cases s <;>
    simp only [check_if_ready_to_dispatch, send_dispatch_arm_task] <;>
    split_ifs <;> simp_all

lemma step_eff_success (st : CoordState) (s : Bool) (er : EffectorResponse)
    (h : (Event.effectorCompletion s (some er)).isSuccess = true) :
    (step st (Event.effectorCompletion s (some er))).zone_requests_pending
        = st.zone_requests_pending ∧
    (step st (Event.effectorCompletion s (some er))).effector_checks_pending
        = st.effector_checks_pending - 1 ∧
    (step st (Event.effectorCompletion s (some er))).cancelled = st.cancelled ∧
    (step st (Event.effectorCompletion s (some er))).published
        = st.published +
          (if st.zone_requests_pending = 0 ∧ st.effector_checks_pending - 1 = 0
           then 1 else 0) := by
  have hc : ¬(er.effector_ready = false) := by
    simp [Event.isSuccess] at h
    simp [h]
  simp only [step, effector_query_service_callback]
  rw [if_neg hc]
  simp only [check_if_ready_to_dispatch, send_dispatch_arm_task]
  split_ifs <;> simp_all

lemma step_cancelled (st : CoordState) (e : Event) :
    (step st e).cancelled = (st.cancelled || !e.isSuccess) := by
  by_cases hs : e.isSuccess = true
  · cases e with
    | zoneCompletion s r =>
      cases r with
      | none => simp [Event.isSuccess] at hs
      | some zr =>
        rw [(step_zone_success st s zr hs).2.2.1]
        simp [hs]
    | effectorCompletion s r =>
      cases r with
      | none => simp [Event.isSuccess] at hs
      | some er =>
        rw [(step_eff_success st s er hs).2.2.1]
        simp [hs]
  · have hs2 : e.isSuccess = false := by simpa using hs
    rw [step_fail st e hs2]
    simp [hs2]

lemma runEvents_cancelled (evs : List Event) : ∀ st : CoordState,
    (runEvents st evs).cancelled = (st.cancelled || evs.any fun e => !e.isSuccess) := by
  induction evs with
  | nil => intro st; simp [runEvents]
  | cons e t ih =>
    intro st
    have hr : runEvents st (e :: t) = runEvents (step st e) t := rfl
    rw [hr, ih, step_cancelled]
    simp [Bool.or_assoc]

lemma zoneEvents_add_effEvents (evs : List Event) :
    zoneEvents evs + effEvents evs = evs.length := by
  induction evs with
  | nil => simp [zoneEvents, effEvents]
  | cons e t ih =>
    cases hzb : e.isZone <;>
      simp [zoneEvents, effEvents, List.countP_cons, hzb] at ih ⊢ <;> omega

/-! ## Helper lemmas about initialisation -/

lemma init_counters (a : Args) :
    (init_requester a).1.zone_requests_pending
        = ((init_requester a).2.countP ReqKind.isZone : Int) ∧
    (init_requester a).1.effector_checks_pending
        = ((init_requester a).2.countP (fun k => !k.isZone) : Int) ∧
    (init_requester a).1.published = (if a.action = "arm_action" then 1 else 0) ∧
    (init_requester a).1.cancelled = false := by
  by_cases ha : a.action = "arm_action"
  · simp [init_requester, ha, initial_state, send_dispatch_arm_task]
  · by_cases h1 : truthyOpt a.object_name = true <;>
    by_cases h2 : truthyStr a.action2 = true <;>
    by_cases h3 : truthyOpt a.object_name2 = true <;>
      simp [init_requester, ha, initial_state, h1, h2, h3,
        List.countP_append, List.countP_cons, ReqKind.isZone]

lemma init_reqs_length (a : Args) (h : a.action ≠ "arm_action") :
    0 < (init_requester a).2.length := by
  by_cases h1 : truthyOpt a.object_name = true <;>
  by_cases h2 : truthyStr a.action2 = true <;>
  by_cases h3 : truthyOpt a.object_name2 = true <;>
    simp [init_requester, h, h1, h2, h3]

/-! ## Helper lemmas about the service wait loop -/

lemma wait_loop_none_of_never (fuel i : Nat) :
    wait_for_service_loop (fun _ => false) fuel i = none := by
  induction fuel generalizing i with
  | zero => rfl
  | succ f ih => simp [wait_for_service_loop, ih]

lemma wait_loop_some_avail (avail : Nat → Bool) :
    ∀ (fuel i j : Nat), wait_for_service_loop avail fuel i = some j → avail j = true := by
  intro fuel
  induction fuel with
  | zero => intro i j h; exact Option.noConfusion h
  | succ f ih =>
    intro i j h
    by_cases ha : avail i = true
    · simp [wait_for_service_loop, ha] at h
      rw [← h]
      exact ha
    · simp [wait_for_service_loop, ha] at h
      exact ih _ _ h

lemma wait_loop_reaches (avail : Nat → Bool) :
    ∀ (k i : Nat), avail (i + k) = true →
      ∃ j, wait_for_service_loop avail (k + 1) i = some j := by
  intro k
  induction k with
  | zero =>
    intro i h
    exact ⟨i, by simp [wait_for_service_loop]; simpa using h⟩
  | succ n ih =>
    intro i h
    by_cases ha : avail i = true
    · exact ⟨i, by simp [wait_for_service_loop, ha]⟩
    · obtain ⟨j, hj⟩ := ih (i + 1) (by
        have : i + 1 + n = i + (n + 1) := by omega
        rw [this]
        exact h)
      refine ⟨j, ?_⟩
      simp [wait_for_service_loop, ha]
      exact hj

/-! ## Claims about the composed payload -/

/-- C3 counterexample: for the configuration `c3_args` (first action
`pick`), the outer `category` field of the composed request is the literal
`compose`, not the first action name, so the two category fields are not
both equal to the first action name. -/
theorem outer_category_is_compose_not_action :
    (create_dispatch_arm_task c3_args initial_state 0 0).category = "compose" ∧
    c3_args.action = "pick" ∧
    (create_dispatch_arm_task c3_args initial_state 0 0).category ≠ c3_args.action := by
  refine ⟨rfl, rfl, ?_⟩
  decide

/-- C3 (amended): the inner `description.category` field equals the first
action name and the outer `category` field is the constant `compose`,
for every configuration, coordinator state and clock reading. -/
theorem category_fields_values (a : Args) (st : CoordState) (sec : Int) (ns : Nat) :
    (create_dispatch_arm_task a st sec ns).description_category = a.action ∧
    (create_dispatch_arm_task a st sec ns).category = "compose" :=
  ⟨rfl, rfl⟩

/-- C4: the composed activities list is the flat concatenation of the
first action slot contribution followed by the second action slot
contribution (empty when no second action is configured), and each slot
contribution is one of: empty, a single `perform_action` activity, or a
zone activity immediately followed by a `perform_action` activity — never
nested or interleaved. -/
theorem activities_flat_ordered (a : Args) (st : CoordState) (sec : Int) (ns : Nat) :
    (create_dispatch_arm_task a st sec ns).activities =
      add_action_activities a.action a.object_name st.object_zone_name
        a.action_desc a.places ++
      (if truthyStr a.action2 then
        add_action_activities a.action2 a.object_name2 st.object_zone_name2
          a.action_desc2 a.places
      else []) ∧
    (∀ (act : String) (obj zone : Option String) (d : List (String × String))
        (p : List String),
      add_action_activities act obj zone d p = [] ∨
      (∃ dd, add_action_activities act obj zone d p =
        [Activity.performAction 60000 act dd]) ∨
      (∃ zn dd, add_action_activities act obj zone d p =
        [Activity.zoneActivity zn p, Activity.performAction 60000 act dd])) := by
  refine ⟨rfl, ?_⟩
  intro act obj zone d p
  unfold add_action_activities
  by_cases h : truthyOpt obj = true
  · rw [if_pos h]
    cases zone with
    | none => exact Or.inl rfl
    | some zn => exact Or.inr (Or.inr ⟨zn, _, rfl⟩)
  · rw [if_neg h]
    exact Or.inr (Or.inl ⟨d, rfl⟩)

/-- C5: the earliest start time equals `(sec + offset) * 1000` plus the
current nanoseconds converted to milliseconds; the integer second offset
is added before millisecond conversion, so the start time for offset
`off` is the start time for offset `0` shifted by exactly `off * 1000`
milliseconds, preserving the sub-second part of the current time. -/
theorem earliest_start_time_formula (a : Args) (st : CoordState)
    (sec off : Int) (ns : Nat) :
    task_start_time sec off ns = (sec + off) * 1000 + (round_ns_to_millis ns : Int) ∧
    task_start_time sec off ns = task_start_time sec 0 ns + off * 1000 ∧
    (create_dispatch_arm_task a st sec ns).unix_millis_earliest_start_time
      = task_start_time sec a.start_time ns := by
  refine ⟨rfl, ?_, rfl⟩
  unfold task_start_time
  ring

/-- C10: when an object name is supplied (truthy) but the aggregated zone
attribute is `None` — as in the immediate-dispatch path, where the payload
is composed before any zone verification runs — the composer emits no
activities at all for that slot. -/
theorem no_activities_when_zone_missing (act : String) (obj : Option String)
    (d : List (String × String)) (p : List String)
    (h : truthyOpt obj = true) :
    add_action_activities act obj none d p = [] := by
  unfold add_action_activities
  rw [if_pos h]

/-- C10 witness: concrete slot with object name `bin7` and no zone
attribute contributes no activities. -/
theorem no_activities_when_zone_missing_witness :
    truthyOpt (some "bin7") = true ∧
    add_action_activities "scan" (some "bin7") none [] [] = [] :=
  ⟨by decide, no_activities_when_zone_missing "scan" (some "bin7") [] [] (by decide)⟩

/-! ## Claims about the couple/decouple requester -/

/-- C9: for every configuration whose action is outside the two known
coupling kinds, the couple/decouple requester raises the `ValueError`
before anything is published: the construction ends in the error and the
publication count is zero. -/
theorem invalid_action_fails_fast (a : CDArgs) (sec : Int) (ns : Nat)
    (h1 : a.action ≠ "couple") (h2 : a.action ≠ "decouple") :
    couple_decouple_requester a sec ns =
      Except.error "ValueError: Action should be couple or decouple" ∧
    cd_publications a sec ns = 0 := by
  have hcond : ¬(a.action = "couple" ∨ a.action = "decouple") := by
    rintro (h | h)
    · exact h1 h
    · exact h2 h
  constructor
  · simp [couple_decouple_requester, hcond]
  · simp [cd_publications, couple_decouple_requester, hcond]

/-- C9 witness: the concrete action `dock` is rejected with the
`ValueError` and nothing is published. -/
theorem invalid_action_fails_fast_witness :
    c9_args.action ≠ "couple" ∧
    (couple_decouple_requester c9_args 0 0 =
      Except.error "ValueError: Action should be couple or decouple" ∧
     cd_publications c9_args 0 0 = 0) :=
  ⟨by decide, invalid_action_fails_fast c9_args 0 0 (by decide) (by decide)⟩

/-! ## Claims about the service wait loop -/

/-- C8 counterexample: with a service that never becomes available, the
`while not wait_for_service(timeout_sec=5.0)` loop never exits, whatever
amount of fuel it is given — the wait is not bounded, unavailability at
this stage is never surfaced as a cancellation, and the process hangs. -/
theorem wait_loop_never_exits_when_unavailable :
    ¬ wait_loop_exits (fun _ => false) := by
  rintro ⟨fuel, i, h⟩
  rw [wait_loop_none_of_never] at h
  exact Option.noConfusion h

/-- C8 (amended): the service wait loop terminates exactly when the
service eventually becomes available during some five-second wait slice;
there is no bound after which the coordinator gives up. -/
theorem wait_loop_exits_iff_eventually_available (avail : Nat → Bool) :
    wait_loop_exits avail ↔ ∃ k, avail k = true := by
  constructor
  · rintro ⟨fuel, i, h⟩
    exact ⟨i, wait_loop_some_avail avail fuel 0 i h⟩
  · rintro ⟨k, hk⟩
    obtain ⟨j, hj⟩ := wait_loop_reaches avail k 0 (by simpa using hk)
    exact ⟨k + 1, j, hj⟩

/-! ## The central counting lemma for the coordinator -/

lemma run_published_spec (evs : List Event) : ∀ (st : CoordState) (za eb : Nat),
    st.zone_requests_pending = (zoneEvents evs : Int) + (za : Int) →
    st.effector_checks_pending = (effEvents evs : Int) + (eb : Int) →
    (runEvents st evs).published = st.published +
      (if evs ≠ [] ∧ evs.all Event.isSuccess = true ∧ za = 0 ∧ eb = 0
       then 1 else 0) := by
  induction evs with
  | nil =>
    intro st za eb _ _
    simp [runEvents]
  | cons e rest ih =>
    intro st za eb hz he
    have hrun : runEvents st (e :: rest) = runEvents (step st e) rest := rfl
    rw [hrun]
    by_cases hs : e.isSuccess = true
    · cases e with
      | zoneCompletion s r =>
        cases r with
        | none => simp [Event.isSuccess] at hs
        | some zr =>
          have hz1 : zoneEvents (Event.zoneCompletion s (some zr) :: rest)
              = zoneEvents rest + 1 := by
            simp [zoneEvents, List.countP_cons, Event.isZone, Event.kind, ReqKind.isZone]
          have he1 : effEvents (Event.zoneCompletion s (some zr) :: rest)
              = effEvents rest := by
            simp [effEvents, List.countP_cons, Event.isZone, Event.kind, ReqKind.isZone]
          obtain ⟨p1, p2, p3, p4⟩ := step_zone_success st s zr hs
          rw [hz1] at hz
          rw [he1] at he
          by_cases hfire : st.zone_requests_pending - 1 = 0 ∧
              st.effector_checks_pending = 0
          · obtain ⟨hf1, hf2⟩ := hfire
            have hza : zoneEvents rest = 0 ∧ za = 0 := by
              constructor <;> omega
            have heb : effEvents rest = 0 ∧ eb = 0 := by
              constructor <;> omega
            have hlen : rest.length = 0 := by
              have hsum := zoneEvents_add_effEvents rest
              omega
            have hrest : rest = [] := List.eq_nil_of_length_eq_zero hlen
            subst hrest
            have hrun2 : runEvents (step st (Event.zoneCompletion s (some zr))) []
                = step st (Event.zoneCompletion s (some zr)) := rfl
            rw [hrun2, p4, if_pos ⟨hf1, hf2⟩]
            simp [hs, hza.2, heb.2]
          · have ih2 := ih (step st (Event.zoneCompletion s (some zr))) za eb
              (by rw [p1]; omega) (by rw [p2]; omega)
            rw [ih2, p4, if_neg hfire]
            by_cases hza0 : za = 0
            · by_cases heb0 : eb = 0
              · by_cases hr : rest = []
                · exfalso
                  apply hfire
                  subst hr
                  simp [zoneEvents, effEvents] at hz he
                  constructor <;> omega
                · simp [hr, hs, hza0, heb0]
              · simp [heb0]
            · simp [hza0]
      | effectorCompletion s r =>
        cases r with
        | none => simp [Event.isSuccess] at hs
        | some er =>
          have hz1 : zoneEvents (Event.effectorCompletion s (some er) :: rest)
              = zoneEvents rest := by
            simp [zoneEvents, List.countP_cons, Event.isZone, Event.kind, ReqKind.isZone]
          have he1 : effEvents (Event.effectorCompletion s (some er) :: rest)
              = effEvents rest + 1 := by
            simp [effEvents, List.countP_cons, Event.isZone, Event.kind, ReqKind.isZone]
          obtain ⟨p1, p2, p3, p4⟩ := step_eff_success st s er hs
          rw [hz1] at hz
          rw [he1] at he
          by_cases hfire : st.zone_requests_pending = 0 ∧
              st.effector_checks_pending - 1 = 0
          · obtain ⟨hf1, hf2⟩ := hfire
            have hza : zoneEvents rest = 0 ∧ za = 0 := by
              constructor <;> omega
            have heb : effEvents rest = 0 ∧ eb = 0 := by
              constructor <;> omega
            have hlen : rest.length = 0 := by
              have hsum := zoneEvents_add_effEvents rest
              omega
            have hrest : rest = [] := List.eq_nil_of_length_eq_zero hlen
            subst hrest
            have hrun2 : runEvents (step st (Event.effectorCompletion s (some er))) []
                = step st (Event.effectorCompletion s (some er)) := rfl
            rw [hrun2, p4, if_pos ⟨hf1, hf2⟩]
            simp [hs, hza.2, heb.2]
          · have ih2 := ih (step st (Event.effectorCompletion s (some er))) za eb
              (by rw [p1]; omega) (by rw [p2]; omega)
            rw [ih2, p4, if_neg hfire]
            by_cases hza0 : za = 0
            · by_cases heb0 : eb = 0
              · by_cases hr : rest = []
                · exfalso
                  apply hfire
                  subst hr
                  simp [zoneEvents, effEvents] at hz he
                  constructor <;> omega
                · simp [hr, hs, hza0, heb0]
              · simp [heb0]
            · simp [hza0]
    · have hs2 : e.isSuccess = false := by simpa using hs
      have hstep := step_fail st e hs2
      have hall : (e :: rest).all Event.isSuccess = false := by simp [hs2]
      cases hzb : e.isZone with
      | true =>
        have hz1 : zoneEvents (e :: rest) = zoneEvents rest + 1 := by
          simp [zoneEvents, List.countP_cons, hzb]
        have he1 : effEvents (e :: rest) = effEvents rest := by
          simp [effEvents, List.countP_cons, hzb]
        rw [hz1] at hz
        rw [he1] at he
        have ih2 := ih (step st e) (za + 1) eb
          (by rw [hstep]; push_cast; push_cast at hz; omega)
          (by rw [hstep]; exact he)
        rw [ih2, hstep]
        simp [hall]
      | false =>
        have hz1 : zoneEvents (e :: rest) = zoneEvents rest := by
          simp [zoneEvents, List.countP_cons, hzb]
        have he1 : effEvents (e :: rest) = effEvents rest + 1 := by
          simp [effEvents, List.countP_cons, hzb]
        rw [hz1] at hz
        rw [he1] at he
        have ih2 := ih (step st e) za (eb + 1)
          (by rw [hstep]; exact hz)
          (by rw [hstep]; push_cast; push_cast at he; omega)
        rw [ih2, hstep]
        simp [hall]

/-! ## Claims about the prerequisite-gated coordinator -/

/-- C1: for every configuration on the verification path (so at least one
verification request is issued) and every completion order covering each
issued request exactly once, the coordinator publishes at most once, and
publishes exactly once if and only if every completion is a success. -/
theorem dispatch_publishes_iff_all_success (a : Args) (ha : a.action ≠ "arm_action")
    (evs : List Event)
    (hperm : List.Perm (evs.map Event.kind) (init_requester a).2) :
    (runEvents (init_requester a).1 evs).published ≤ 1 ∧
    ((runEvents (init_requester a).1 evs).published = 1 ↔
      evs.all Event.isSuccess = true) := by
  obtain ⟨hc1, hc2, hc3, hc4⟩ := init_counters a
  have hzc : zoneEvents evs = (init_requester a).2.countP ReqKind.isZone := by
    have h1 := hperm.countP_eq ReqKind.isZone
    rw [← h1, List.countP_map]
    rfl
  have hec : effEvents evs = (init_requester a).2.countP (fun k => !k.isZone) := by
    have h1 := hperm.countP_eq (fun k => !k.isZone)
    rw [← h1, List.countP_map]
    rfl
  have hne : evs ≠ [] := by
    intro h0
    have hlen := hperm.length_eq
    rw [h0] at hlen
    simp at hlen
    have := init_reqs_length a ha
    omega
  have hmain := run_published_spec evs (init_requester a).1 0 0
    (by rw [hc1, hzc]; simp) (by rw [hc2, hec]; simp)
  rw [hmain, hc3, if_neg ha]
  by_cases hall : evs.all Event.isSuccess = true
  · simp [hne, hall]
  · simp [hne, hall]

/-- C1 witness: for the concrete configuration `c1_args` and the
all-success completion order `c1_events`, the published count is at most
one and equals one exactly because every completion succeeded. -/
theorem dispatch_publishes_iff_all_success_witness :
    c1_args.action ≠ "arm_action" ∧
    ((runEvents (init_requester c1_args).1 c1_events).published ≤ 1 ∧
     ((runEvents (init_requester c1_args).1 c1_events).published = 1 ↔
       c1_events.all Event.isSuccess = true)) :=
  ⟨by decide,
   dispatch_publishes_iff_all_success c1_args (by decide) c1_events (List.Perm.refl _)⟩

/-- C2 counterexample: for the two-effector configuration `c2_args`, the
first completion fails (cancelling the outcome, counter untouched at 2),
and the late success that arrives afterwards still decrements the pending
counter from 2 to 1 — so a later-arriving completion is not a no-op on the
counters, contradicting the claim as stated. -/
theorem late_completion_decrements_after_cancel :
    c2_state1.cancelled = true ∧
    c2_state1.effector_checks_pending = 2 ∧
    c2_state2.effector_checks_pending = 1 ∧
    c2_state2.cancelled = true := by
  refine ⟨?_, ?_, ?_, ?_⟩ <;> decide

/-- C2 (amended): once a failure has been reported, the cancellation is
permanent and no later completion ever triggers (or re-triggers) dispatch:
after any event sequence that contains a failure, followed by any further
completions (each issued request completing at most once), the outcome is
cancelled and the published count is zero — although a late successful
completion does still decrement its pending counter. -/
theorem no_dispatch_after_failure (a : Args) (ha : a.action ≠ "arm_action")
    (evs1 evs2 : List Event)
    (hzc : zoneEvents (evs1 ++ evs2) ≤ (init_requester a).2.countP ReqKind.isZone)
    (hec : effEvents (evs1 ++ evs2) ≤
      (init_requester a).2.countP (fun k => !k.isZone))
    (hfail : (evs1.any fun e => !e.isSuccess) = true) :
    (runEvents (init_requester a).1 (evs1 ++ evs2)).cancelled = true ∧
    (runEvents (init_requester a).1 (evs1 ++ evs2)).published = 0 := by
  obtain ⟨hc1, hc2, hc3, hc4⟩ := init_counters a
  constructor
  · rw [runEvents_cancelled, hc4]
    simp [List.any_append, hfail]
  · have hall : ¬((evs1 ++ evs2).all Event.isSuccess = true) := by
      intro hallT
      obtain ⟨e, hin, hne⟩ := List.any_eq_true.mp hfail
      have hT := List.all_eq_true.mp hallT e (List.mem_append_left evs2 hin)
      rw [hT] at hne
      simp at hne
    have hmain := run_published_spec (evs1 ++ evs2) (init_requester a).1
      ((init_requester a).2.countP ReqKind.isZone - zoneEvents (evs1 ++ evs2))
      ((init_requester a).2.countP (fun k => !k.isZone) - effEvents (evs1 ++ evs2))
      (by rw [hc1]; omega) (by rw [hc2]; omega)
    rw [hmain, hc3, if_neg ha]
    simp [hall]

/-- C2 amended witness: for the concrete configuration `c2_args`, the
failing effector completion followed by the late successful one yields a
cancelled outcome and zero publications. -/
theorem no_dispatch_after_failure_witness :
    (zoneEvents ([c2_fail_event] ++ [c2_late_event]) ≤
      (init_requester c2_args).2.countP ReqKind.isZone) ∧
    (([c2_fail_event].any fun e => !e.isSuccess) = true) ∧
    ((runEvents (init_requester c2_args).1 ([c2_fail_event] ++ [c2_late_event])).cancelled
        = true ∧
     (runEvents (init_requester c2_args).1 ([c2_fail_event] ++ [c2_late_event])).published
        = 0) :=
  ⟨by decide, by decide,
   no_dispatch_after_failure c2_args (by decide) [c2_fail_event] [c2_late_event]
     (by decide) (by decide) (by decide)⟩

/-- C6: a transport-level failure (no result available) and a negative
verification result (zone rejected or effector not ready) lead the
callbacks to exactly the same state — cancelled, with every counter and
every other field untouched — for every coordinator state and slot. -/
theorem unavailable_and_rejected_identical (st : CoordState) (s : Bool)
    (zr : ZoneResponse) (er : EffectorResponse)
    (hzr : zr.is_mm_zone = false ∨ zr.zone_name = "")
    (her : er.effector_ready = false) :
    zone_request_service_callback st (some zr) s
      = zone_request_service_callback st none s ∧
    zone_request_service_callback st none s = { st with cancelled := true } ∧
    effector_query_service_callback st (some er) s
      = effector_query_service_callback st none s ∧
    effector_query_service_callback st none s = { st with cancelled := true } := by
  refine ⟨?_, rfl, ?_, rfl⟩
  · simp only [zone_request_service_callback]
    rw [if_pos hzr]
  · simp only [effector_query_service_callback]
    rw [if_pos her]

/-- C6 witness: a concrete rejected zone result and a concrete not-ready
effector result are handled exactly like the corresponding unavailable
results, each producing the cancelled state. -/
theorem unavailable_and_rejected_identical_witness :
    zone_request_service_callback initial_state
        (some { is_mm_zone := false, zone_name := "", result := "rejected" }) false
      = zone_request_service_callback initial_state none false ∧
    zone_request_service_callback initial_state none false
      = { initial_state with cancelled := true } ∧
    effector_query_service_callback initial_state
        (some { effector_ready := false }) false
      = effector_query_service_callback initial_state none false ∧
    effector_query_service_callback initial_state none false
      = { initial_state with cancelled := true } :=
  unavailable_and_rejected_identical initial_state false
    { is_mm_zone := false, zone_name := "", result := "rejected" }
    { effector_ready := false } (Or.inl rfl) rfl

/-- C7: every configuration requiring zero prerequisite verifications
publishes exactly once immediately, and issues no verification request. -/
theorem zero_prereq_immediate_dispatch (a : Args)
    (h : required_verifications a = 0) :
    (init_requester a).1.published = 1 ∧ (init_requester a).2 = [] := by
  by_cases ha : a.action = "arm_action"
  · constructor
    · simp [init_requester, ha, send_dispatch_arm_task, initial_state]
    · simp [init_requester, ha]
  · exfalso
    have := init_reqs_length a ha
    unfold required_verifications at h
    omega

/-- C7 witness: the concrete `arm_action` configuration requires zero
verifications, publishes exactly once, and issues no request. -/
theorem zero_prereq_immediate_dispatch_witness :
    required_verifications c7_args = 0 ∧
    ((init_requester c7_args).1.published = 1 ∧ (init_requester c7_args).2 = []) :=
  ⟨by decide, zero_prereq_immediate_dispatch c7_args (by decide)⟩
